import Mathlib

/-!
Formal model of the Rust wrapper in src/rust.rs (rust-mozjs): the
Runtime facade over a SpiderMonkey JSRuntime/JSContext pair.

The embedding is shallow.  Native engine calls are recorded as events in
explicit traces; the values the native engine returns (pointers, status
codes, the out-parameter result value) are parameters of the Lean
functions.  Machine integer casts (usize as c_uint) are modelled as
reduction modulo 2^32.  A Rust panic (unwinding) is modelled as
Except.error () threaded through sequential composition, so that code
after the panic point is skipped.

Constants imported by rust.rs from the crate root or from the jsapi
bindings (default_heapsize, default_stacksize, ERR, the JSOPTION_* flag
values, JSGC_MAX_BYTES, JSVERSION_LATEST, JS_DEFAULT_ZEAL_FREQ) are not
defined in src/rust.rs itself; they are kept as parameters of the model,
so every statement below holds for every possible value of them.
-/

/-- A native pointer: either null or a valid address. -/
inductive Ptr where
  | null
  | valid (addr : Nat)
deriving DecidableEq

/-- The is_null test on native pointers. -/
def Ptr.isNull : Ptr → Bool
  | Ptr.null => true
  | Ptr.valid _ => false

/-- UTF-16 encoding of one Unicode scalar value, as performed by
str::utf16_units in the source: scalars below 0x10000 become one code
unit, the rest become a surrogate pair. -/
def utf16EncodeChar (c : Nat) : List Nat :=
  if c < 0x10000 then [c]
  else [0xD800 + (c - 0x10000) / 0x400, 0xDC00 + (c - 0x10000) % 0x400]

/-- script.utf16_units().collect(): the concatenated UTF-16 encoding of a
string, the string being modelled as its list of Unicode scalar values. -/
def utf16Units : List Nat → List Nat
  | [] => []
  | c :: rest => utf16EncodeChar c ++ utf16Units rest

/-- ffi::CString::new on a byte string: fails (None) when the bytes
contain an embedded 0, otherwise appends the terminating 0. -/
def cStringNew (bytes : List Nat) : Option (List Nat) :=
  if bytes.contains 0 then none else some (bytes ++ [0])

/-- Vec::as_ptr: the buffer of a non-empty vector is non-null; an empty
vector's pointer is modelled conservatively as null, the hazard the
source guards against with its static empty slice. -/
def vecAsPtr : List Nat → Ptr
  | [] => Ptr.null
  | _ :: _ => Ptr.valid 2

/-- The address of the static empty slice the source substitutes for an
empty script; a static lives at a non-null address. -/
def emptyStaticPtr : Ptr := Ptr.valid 1

/-- u32::MAX. -/
def u32MAX : Nat := 4294967295

/-- Modulus of the usize-to-c_uint cast. -/
def u32Mod : Nat := 4294967296

/-- The arguments of one native JS_EvaluateUCScript invocation, as
marshaled by Runtime::evaluate_script: the UTF-16 text pointer, the text
length cast to c_uint, the null-terminated source-name bytes, and the
starting line number cast to c_uint. -/
structure NativeEvalCall where
  textPtr : Ptr
  textLen : Nat
  filenameCStr : List Nat
  lineno : Nat
deriving DecidableEq

/-- One run of Runtime::evaluate_script: the native evaluate calls it
performed (zero if it panicked first, one otherwise) and its outcome.
outcome = Except.error () means the Rust call panicked (unwound);
outcome = Except.ok res means it returned res, the wrapped
Result<(), ()>.  The run touches no state of the Runtime itself: the
Rust function takes &self, so the Runtime can only be affected through
the native calls listed in nativeCalls. -/
structure EvalRun where
  nativeCalls : List NativeEvalCall
  outcome : Except Unit (Except Unit Unit)

/-- Runtime::evaluate_script from src/rust.rs, line by line.  script is
the script text (Unicode scalar values), fname the UTF-8 bytes of the
filename String, lineNum the usize line number.  status is the status
code the native JS_EvaluateUCScript call returns and rval the value it
writes into the out-parameter; err is the crate-level ERR sentinel.  The
source: collect the UTF-16 units; CString::new(filename).unwrap() —
panics on an embedded 0 byte; substitute the static empty slice for an
empty text, else pass the vector buffer and its length as c_uint;
assert the pointer is non-null; call the native evaluate; map status ==
ERR to Err(()) and anything else to Ok(()), dropping rval. -/
def evaluateScript (script fname : List Nat) (lineNum status rval err : Nat) : EvalRun :=
  let script_utf16 := utf16Units script
  match cStringNew fname with
  | none => ⟨[], Except.error ()⟩
  | some filename_cstr =>
    let pl : Ptr × Nat :=
      if script_utf16.length = 0 then (emptyStaticPtr, 0)
      else (vecAsPtr script_utf16, script_utf16.length % u32Mod)
    if pl.1.isNull then ⟨[], Except.error ()⟩
    else
      let call : NativeEvalCall := ⟨pl.1, pl.2, filename_cstr, lineNum % u32Mod⟩
      let result := status
      let _ := rval
      if result = err then ⟨[call], Except.ok (Except.error ())⟩
      else ⟨[call], Except.ok (Except.ok ())⟩

/-- The single native call an evaluate_script run performs when the
filename marshals: helper description of the marshaled arguments. -/
def marshaledCall (script fname : List Nat) (lineNum : Nat) : NativeEvalCall :=
  let su := utf16Units script
  if su.length = 0 then ⟨emptyStaticPtr, 0, fname ++ [0], lineNum % u32Mod⟩
  else ⟨vecAsPtr su, su.length % u32Mod, fname ++ [0], lineNum % u32Mod⟩

/-- The constants Runtime::new imports from the crate root and the jsapi
bindings, which live outside src/rust.rs: default heap and stack sizes,
the JSGC_MAX_BYTES parameter key, the five JSOPTION_* flag values, the
JSVERSION_LATEST code and JS_DEFAULT_ZEAL_FREQ.  Kept abstract so every
theorem holds for all of their possible values. -/
structure CrateConsts where
  defaultHeapsize : Nat
  defaultStacksize : Nat
  jsgcMaxBytes : Nat
  varobjfix : Nat
  methodjit : Nat
  typeInference : Nat
  dontReportUncaught : Nat
  autojsapiOwns : Nat
  jsversionLatest : Nat
  defaultZealFreq : Nat
deriving DecidableEq

/-- One native call performed by Runtime::new, in the order the source
makes them.  jsSetErrorReporter records the installation of the
reportError callback, the only reporter this wrapper ever installs. -/
inductive InitCall where
  | jsInit (maxbytes : Nat)
  | jsSetGCParameter (key value : Nat)
  | jsNewContext (stacksize : Nat)
  | jsSetOptions (opts : Nat)
  | jsSetVersion (v : Nat)
  | jsSetErrorReporter
  | jsSetGCZeal (zeal freq : Nat)
deriving DecidableEq

/-- Outcome of Runtime::new: aborted records that an assert!(..) on a
null native handle fired (the trace lists the native calls made up to
that point); built records the assembled Runtime and the full trace. -/
inductive NewOutcome where
  | aborted (calls : List InitCall)
  | built (rtPtr cxPtr : Ptr) (calls : List InitCall)
deriving DecidableEq

/-- Runtime::new from src/rust.rs, line by line.  rtPtr and cxPtr are
the handles the native JS_Init and JS_NewContext calls return.  The
source: JS_Init(default_heapsize); assert non-null; JS_SetGCParameter
(JSGC_MAX_BYTES, u32::MAX); JS_NewContext(default_stacksize); assert
non-null; JS_SetOptions of the five JSOPTION flags or-ed together;
JS_SetVersion(JSVERSION_LATEST); JS_SetErrorReporter(reportError);
JS_SetGCZeal(0, JS_DEFAULT_ZEAL_FREQ); then wrap the two handles in the
Rc cells rt_rsrc and Cx. -/
def runtimeNew (c : CrateConsts) (rtPtr cxPtr : Ptr) : NewOutcome :=
  let t1 := [InitCall.jsInit c.defaultHeapsize]
  if rtPtr.isNull then NewOutcome.aborted t1 else
  let t2 := t1 ++ [InitCall.jsSetGCParameter c.jsgcMaxBytes u32MAX]
  let t3 := t2 ++ [InitCall.jsNewContext c.defaultStacksize]
  if cxPtr.isNull then NewOutcome.aborted t3 else
  let t4 := t3 ++ [InitCall.jsSetOptions (c.varobjfix ||| c.methodjit ||| c.typeInference |||
    c.dontReportUncaught ||| c.autojsapiOwns)]
  let t5 := t4 ++ [InitCall.jsSetVersion c.jsversionLatest]
  let t6 := t5 ++ [InitCall.jsSetErrorReporter]
  let t7 := t6 ++ [InitCall.jsSetGCZeal 0 c.defaultZealFreq]
  NewOutcome.built rtPtr cxPtr t7

/-- A native finalizer invocation: JS_DestroyContext (run by Drop for
Cx) or JS_Finish (run by Drop for rt_rsrc). -/
inductive FinEvent where
  | destroyContext
  | finish
deriving DecidableEq

/-- The reference counts of the two Rc cells a family of cloned Runtime
values shares: rtCount strong references to the rt_rsrc cell and
cxCount strong references to the Cx cell.  Cloning a Runtime clones
both Rc fields; the Cx cell itself holds one further strong reference
to the rt_rsrc cell (its rt field), counted in rtCount while the Cx
cell is alive. -/
structure RcCounts where
  rtCount : Nat
  cxCount : Nat
deriving DecidableEq

/-- Dropping one Rc<rt_rsrc> reference: decrement the strong count; on
reaching zero, run Drop for rt_rsrc, whose body calls JS_Finish. -/
def dropRtRc (s : RcCounts × List FinEvent) : RcCounts × List FinEvent :=
  if s.1.rtCount = 1 then (⟨0, s.1.cxCount⟩, s.2 ++ [FinEvent.finish])
  else (⟨s.1.rtCount - 1, s.1.cxCount⟩, s.2)

/-- Dropping one Rc<Cx> reference: decrement the strong count; on
reaching zero, run Drop for Cx (JS_DestroyContext), and only after that
body completes drop the Cx cell's stored rt field, releasing its strong
reference to the rt_rsrc cell. -/
def dropCxRc (s : RcCounts × List FinEvent) : RcCounts × List FinEvent :=
  if s.1.cxCount = 1 then dropRtRc (⟨s.1.rtCount, 0⟩, s.2 ++ [FinEvent.destroyContext])
  else (⟨s.1.rtCount, s.1.cxCount - 1⟩, s.2)

/-- Dropping one Runtime value drops its two Rc fields (rt, then cx, in
declaration order). -/
def dropRuntime (s : RcCounts × List FinEvent) : RcCounts × List FinEvent :=
  dropCxRc (dropRtRc s)

/-- Dropping n Runtime values of one family, one after the other.  The
clones of one family are indistinguishable to the reference counts, so
an arbitrary drop order over the family is n successive dropRuntime
steps. -/
def dropAll : Nat → RcCounts × List FinEvent → RcCounts × List FinEvent
  | 0, s => s
  | k + 1, s => dropAll k (dropRuntime s)

/-- The Rc state after Runtime::new plus cloning, with m Runtime values
alive in total and no finalizer yet run: the Cx cell is referenced by
the m cx fields, and the rt_rsrc cell by the m rt fields plus the Cx
cell's own rt field. -/
def runtimeFamily (m : Nat) : RcCounts × List FinEvent := (⟨m + 1, m⟩, [])

/-- Whether a byte is a UTF-8 continuation byte (0x80..0xBF). -/
def isCont (b : Nat) : Bool := decide (0x80 ≤ b ∧ b ≤ 0xBF)

/-- UTF-8 validity of a byte sequence, as checked by str::from_utf8:
ASCII, two-byte (C2..DF), three-byte (E0 / E1..EC, EE, EF / ED) and
four-byte (F0 / F1..F3 / F4) sequences with their restricted ranges of
first continuation bytes, excluding overlong forms and surrogates. -/
def validUtf8 : List Nat → Bool
  | [] => true
  | b :: rest =>
    if b ≤ 0x7F then validUtf8 rest
    else if 0xC2 ≤ b ∧ b ≤ 0xDF then
      match rest with
      | c1 :: rest1 => isCont c1 && validUtf8 rest1
      | [] => false
    else if b = 0xE0 then
      match rest with
      | c1 :: c2 :: rest2 => decide (0xA0 ≤ c1 ∧ c1 ≤ 0xBF) && isCont c2 && validUtf8 rest2
      | _ => false
    else if (0xE1 ≤ b ∧ b ≤ 0xEC) ∨ b = 0xEE ∨ b = 0xEF then
      match rest with
      | c1 :: c2 :: rest2 => isCont c1 && isCont c2 && validUtf8 rest2
      | _ => false
    else if b = 0xED then
      match rest with
      | c1 :: c2 :: rest2 => decide (0x80 ≤ c1 ∧ c1 ≤ 0x9F) && isCont c2 && validUtf8 rest2
      | _ => false
    else if b = 0xF0 then
      match rest with
      | c1 :: c2 :: c3 :: rest3 =>
        decide (0x90 ≤ c1 ∧ c1 ≤ 0xBF) && isCont c2 && isCont c3 && validUtf8 rest3
      | _ => false
    else if 0xF1 ≤ b ∧ b ≤ 0xF3 then
      match rest with
      | c1 :: c2 :: c3 :: rest3 => isCont c1 && isCont c2 && isCont c3 && validUtf8 rest3
      | _ => false
    else if b = 0xF4 then
      match rest with
      | c1 :: c2 :: c3 :: rest3 =>
        decide (0x80 ≤ c1 ∧ c1 ≤ 0x8F) && isCont c2 && isCont c3 && validUtf8 rest3
      | _ => false
    else false

/-- The UTF-8 bytes of the literal "none" the source substitutes for a
null filename pointer. -/
def noneBytes : List Nat := [110, 111, 110, 101]

/-- The fields of the native JSErrorReport the callback reads: the
filename pointer (none models a null pointer, some bytes a non-null
pointer to a C string with those bytes before the terminator) and the
line number. -/
structure JSErrorReportRepr where
  filename : Option (List Nat)
  lineno : Nat
deriving DecidableEq

/-- The structured diagnostic record the callback emits to the log
sink: source name bytes, line number, message bytes. -/
structure DiagnosticRecord where
  fname : List Nat
  lineno : Nat
  message : List Nat
deriving DecidableEq

/-- Outcome of one reportError invocation: either exactly one
diagnostic record was emitted (the callback returns nothing to the
engine), or the callback panicked. -/
inductive ReportOutcome where
  | emitted (r : DiagnosticRecord)
  | panicked
deriving DecidableEq

/-- reportError from src/rust.rs, line by line.  cx is the (unused)
context argument, msg the bytes of the C string behind the msg pointer,
report the JSErrorReport fields.  The source: if the filename pointer
is non-null, read its C string and convert with
str::from_utf8(..).ok().unwrap() — panicking on invalid UTF-8 —
otherwise substitute "none"; read the line number; convert the message
with the same panicking pattern; emit one error! log record. -/
def reportError (_cx : Ptr) (msg : List Nat) (report : JSErrorReportRepr) : ReportOutcome :=
  let fnameOpt : Option (List Nat) :=
    match report.filename with
    | some bytes => if validUtf8 bytes then some bytes else none
    | none => some noneBytes
  match fnameOpt with
  | none => ReportOutcome.panicked
  | some fname =>
    let lineno := report.lineno
    if validUtf8 msg then ReportOutcome.emitted ⟨fname, lineno, msg⟩
    else ReportOutcome.panicked

/-- Whether the filename field of a report, when non-null, points at
valid UTF-8. -/
def filenameUtf8Ok (report : JSErrorReportRepr) : Bool :=
  match report.filename with
  | none => true
  | some bytes => validUtf8 bytes

/-- One event of a with_compartment run: the native enter call with its
context, target object and returned token; the single invocation of the
closure; the native leave call with the token it consumes. -/
inductive CompEvent where
  | enter (cx obj token : Nat)
  | bodyRun
  | leave (token : Nat)
deriving DecidableEq

/-- with_compartment from src/rust.rs, line by line.  token is the
opaque token the native JS_EnterCrossCompartmentCall returns; body is
the closure's behavior, Except.error () modelling a panic (unwinding).
The source is a plain call-then-call sequence: enter, run the closure,
leave, return the closure's result; an unwinding closure propagates the
unwind, skipping everything after it. -/
def with_compartment {R : Type} (cx obj token : Nat) (body : Except Unit R) :
    List CompEvent × Except Unit R :=
  let afterEnter : List CompEvent := [CompEvent.enter cx obj token]
  let call := token
  match body with
  | Except.error e => (afterEnter ++ [CompEvent.bodyRun], Except.error e)
  | Except.ok result => (afterEnter ++ [CompEvent.bodyRun, CompEvent.leave call], Except.ok result)

theorem vecAsPtr_nonnull (v : List Nat) (hv : v.length ≠ 0) : (vecAsPtr v).isNull = false := by
  cases v with
  | nil => simp at hv
  | cons a l => simp [vecAsPtr, Ptr.isNull]

theorem marshaledCall_nonnull (s f : List Nat) (m : Nat) :
    (marshaledCall s f m).textPtr.isNull = false := by
  unfold marshaledCall
  cases hu : utf16Units s with
  | nil => simp [emptyStaticPtr, Ptr.isNull]
  | cons a l => simp [vecAsPtr, Ptr.isNull]

theorem evaluateScript_panic (s f : List Nat) (m st rv e : Nat) (h : f.contains 0 = true) :
    evaluateScript s f m st rv e = ⟨[], Except.error ()⟩ := by
  have h0 : (0 : Nat) ∈ f := by simpa using h
  have hc : cStringNew f = none := by simp [cStringNew, h0]
  unfold evaluateScript
  rw [hc]

theorem evaluateScript_run (s f : List Nat) (m st rv e : Nat) (h : f.contains 0 = false) :
    evaluateScript s f m st rv e =
      ⟨[marshaledCall s f m],
       Except.ok (if st = e then Except.error () else Except.ok ())⟩ := by
  have h0 : (0 : Nat) ∉ f := by simpa using h
  have hc : cStringNew f = some (f ++ [0]) := by simp [cStringNew, h0]
  unfold evaluateScript marshaledCall
  rw [hc]
  by_cases hz : (utf16Units s).length = 0
  · by_cases hs : st = e <;> simp [hz, hs, emptyStaticPtr, Ptr.isNull]
  · have hvp := vecAsPtr_nonnull (utf16Units s) hz
    by_cases hs : st = e <;> simp [hz, hs, hvp]

/-- C1: for a family of any number of Runtime values (one Runtime::new
plus any number of clones), dropping them all — in any order, the
clones being indistinguishable to the reference counts — runs
JS_DestroyContext exactly once and JS_Finish exactly once, with the
context's destruction strictly before the engine's finalization,
because the Cx cell's rt field keeps the rt_rsrc cell alive until the
Cx drop completes. -/
theorem runtime_clones_drop_finalize_once (n : Nat) :
    dropAll (n + 1) (runtimeFamily (n + 1)) =
      (⟨0, 0⟩, [FinEvent.destroyContext, FinEvent.finish]) := by
  induction n with
  | zero => decide
  | succ k ih =>
    have h3 : k + 3 ≠ 1 := by omega
    have h2 : k + 2 ≠ 1 := by omega
    have hstep : dropRuntime (runtimeFamily (k + 2)) = runtimeFamily (k + 1) := by
      simp [runtimeFamily, dropRuntime, dropRtRc, dropCxRc, h3, h2]
    show dropAll (k + 1) (dropRuntime (runtimeFamily (k + 2))) =
      (⟨0, 0⟩, [FinEvent.destroyContext, FinEvent.finish])
    rw [hstep]
    exact ih

/-- C2, code refutation: with_compartment is a plain call-then-call
sequence, so when the body unwinds (panics) the run's trace holds the
enter call and the body invocation but no leave call:
JS_LeaveCrossCompartmentCall is skipped on the unwinding exit path. -/
theorem with_compartment_skips_leave_on_unwind :
    with_compartment 0 0 7 (Except.error () : Except Unit Nat) =
      ([CompEvent.enter 0 0 7, CompEvent.bodyRun], Except.error ()) := rfl

/-- C9: when the body returns normally, with_compartment enters the
compartment with (cx, object) obtaining the token, runs the body
exactly once, leaves with that same token, and returns exactly the
body's value. -/
theorem with_compartment_normal_path {R : Type} (cx obj token : Nat) (r : R) :
    with_compartment cx obj token (Except.ok r) =
      ([CompEvent.enter cx obj token, CompEvent.bodyRun, CompEvent.leave token],
       Except.ok r) := rfl

/-- C3: for every evaluate_script call whose filename marshals, the
result is Err(()) iff the native status code equals the ERR sentinel;
every other status yields Ok(()); and the out-parameter result value is
discarded — the whole run is independent of the value the native call
wrote into it. -/
theorem evaluate_script_status_mapping (script fname : List Nat) (n status rval rval' err : Nat)
    (h : fname.contains 0 = false) :
    ((evaluateScript script fname n status rval err).outcome = Except.ok (Except.error ()) ↔
      status = err) ∧
    ((evaluateScript script fname n status rval err).outcome = Except.ok (Except.ok ()) ↔
      status ≠ err) ∧
    evaluateScript script fname n status rval err =
      evaluateScript script fname n status rval' err := by
  refine ⟨?_, ?_, ?_⟩
  · rw [evaluateScript_run script fname n status rval err h]
    by_cases hs : status = err <;> simp [hs]
  · rw [evaluateScript_run script fname n status rval err h]
    by_cases hs : status = err <;> simp [hs]
  · rw [evaluateScript_run script fname n status rval err h,
        evaluateScript_run script fname n status rval' err h]

/-- C3 witness: a concrete run with status equal to the sentinel. -/
theorem evaluate_script_status_mapping_witness :
    (([97] : List Nat).contains 0 = false) ∧
    (((evaluateScript [104] [97] 2 5 9 5).outcome = Except.ok (Except.error ()) ↔
       (5 : Nat) = 5) ∧
     ((evaluateScript [104] [97] 2 5 9 5).outcome = Except.ok (Except.ok ()) ↔
       (5 : Nat) ≠ 5) ∧
     evaluateScript [104] [97] 2 5 9 5 = evaluateScript [104] [97] 2 5 3 5) :=
  ⟨by decide, evaluate_script_status_mapping [104] [97] 2 5 9 3 5 (by decide)⟩

/-- C4: the text pointer passed to the native evaluate operation is
never null in any evaluate_script run; and when the script text is
empty (with a filename that marshals, so the native call happens), the
call passes the non-null static empty buffer with length 0. -/
theorem evaluate_script_nonnull_text (script fname : List Nat) (n status rval err : Nat)
    (h : fname.contains 0 = false) (he : utf16Units script = []) :
    (∀ s f : List Nat, ∀ m st rv e : Nat,
      ∀ c ∈ (evaluateScript s f m st rv e).nativeCalls, c.textPtr.isNull = false) ∧
    (evaluateScript script fname n status rval err).nativeCalls =
      [⟨emptyStaticPtr, 0, fname ++ [0], n % u32Mod⟩] := by
  constructor
  · intro s f m st rv e c hmem
    by_cases hf : f.contains 0 = true
    · rw [evaluateScript_panic s f m st rv e hf] at hmem
      simp at hmem
    · have hf' : f.contains 0 = false := by
        cases hb : f.contains 0
        · rfl
        · exact absurd hb hf
      rw [evaluateScript_run s f m st rv e hf'] at hmem
      simp at hmem
      rw [hmem]
      exact marshaledCall_nonnull s f m
  · rw [evaluateScript_run script fname n status rval err h]
    simp [marshaledCall, he]

/-- C4 witness: the empty script with filename "a". -/
theorem evaluate_script_nonnull_text_witness :
    (([97] : List Nat).contains 0 = false) ∧ utf16Units [] = [] ∧
    ((∀ s f : List Nat, ∀ m st rv e : Nat,
        ∀ c ∈ (evaluateScript s f m st rv e).nativeCalls, c.textPtr.isNull = false) ∧
      (evaluateScript [] [97] 1 0 0 0).nativeCalls =
        [⟨emptyStaticPtr, 0, [97] ++ [0], 1 % u32Mod⟩]) :=
  ⟨by decide, rfl, evaluate_script_nonnull_text [] [97] 1 0 0 0 (by decide) rfl⟩

/-- C5: a filename containing an embedded null byte makes
evaluate_script panic at the CString marshaling step, before the native
evaluate operation is invoked — the run performs no native call, so the
Runtime (reachable only through &self and the native engine) is left
untouched — and a subsequent call on the same Runtime with a valid
filename completes normally, succeeding whenever the native status is
not the sentinel. -/
theorem evaluate_script_nul_name_panics_before_native
    (script fname : List Nat) (n status rval err : Nat) (h : fname.contains 0 = true) :
    evaluateScript script fname n status rval err = ⟨[], Except.error ()⟩ ∧
    (∀ s2 f2 : List Nat, ∀ n2 st2 rv2 : Nat, f2.contains 0 = false → st2 ≠ err →
      (evaluateScript s2 f2 n2 st2 rv2 err).outcome = Except.ok (Except.ok ())) := by
  constructor
  · exact evaluateScript_panic script fname n status rval err h
  · intro s2 f2 n2 st2 rv2 h2 hst
    rw [evaluateScript_run s2 f2 n2 st2 rv2 err h2]
    simp [hst]

/-- C5 witness: filename bytes "a\0b". -/
theorem evaluate_script_nul_name_panics_before_native_witness :
    (([97, 0, 98] : List Nat).contains 0 = true) ∧
    (evaluateScript [49] [97, 0, 98] 1 0 0 0 = ⟨[], Except.error ()⟩ ∧
     (∀ s2 f2 : List Nat, ∀ n2 st2 rv2 : Nat, f2.contains 0 = false → st2 ≠ 0 →
       (evaluateScript s2 f2 n2 st2 rv2 0).outcome = Except.ok (Except.ok ()))) :=
  ⟨by decide, evaluate_script_nul_name_panics_before_native [49] [97, 0, 98] 1 0 0 0 (by decide)⟩

/-- C10: evaluate_script does not validate line_num — every value, 0
included, reaches the native call, marshaled as line_num reduced modulo
2^32 — and for a non-empty script the length passed is the UTF-16 code
unit count reduced modulo 2^32. -/
theorem evaluate_script_lineno_len_mod (script fname : List Nat) (n status rval err : Nat)
    (h : fname.contains 0 = false) :
    ∃ c, (evaluateScript script fname n status rval err).nativeCalls = [c] ∧
      c.lineno = n % u32Mod ∧
      (utf16Units script ≠ [] → c.textLen = (utf16Units script).length % u32Mod) := by
  refine ⟨marshaledCall script fname n, ?_, ?_, ?_⟩
  · rw [evaluateScript_run script fname n status rval err h]
  · unfold marshaledCall
    by_cases hz : (utf16Units script).length = 0 <;> simp [hz]
  · intro hne
    have hz : (utf16Units script).length ≠ 0 := by
      cases hu : utf16Units script
      · exact absurd hu hne
      · simp [hu]
    unfold marshaledCall
    simp [hz]

/-- C10 witness: line number 0 with a one-character script. -/
theorem evaluate_script_lineno_len_mod_witness :
    (([97] : List Nat).contains 0 = false) ∧
    (∃ c, (evaluateScript [104] [97] 0 0 0 1).nativeCalls = [c] ∧
      c.lineno = 0 % u32Mod ∧
      (utf16Units [104] ≠ [] → c.textLen = (utf16Units [104]).length % u32Mod)) :=
  ⟨by decide, evaluate_script_lineno_len_mod [104] [97] 0 0 0 1 (by decide)⟩

/-- C6 counterexample: invoked with a null filename pointer, line 1,
and a message whose byte sequence (the single byte 0xFF) is not valid
UTF-8, reportError panics at str::from_utf8(..).ok().unwrap(); the
claim's "never panics" fails for arbitrary message byte sequences. -/
theorem reportError_panics_on_invalid_utf8_msg :
    reportError Ptr.null [255] ⟨none, 1⟩ = ReportOutcome.panicked := by decide

/-- C6, amended: whenever the message bytes — and the filename bytes
when the pointer is non-null — are valid UTF-8, reportError emits
exactly one diagnostic record as its only effect: it returns nothing to
the engine, does not throw, and does not panic. -/
theorem reportError_emits_on_valid_utf8 (cx : Ptr) (msg : List Nat) (report : JSErrorReportRepr)
    (hm : validUtf8 msg = true) (hf : filenameUtf8Ok report = true) :
    ∃ r, reportError cx msg report = ReportOutcome.emitted r := by
  obtain ⟨fn, ln⟩ := report
  cases fn with
  | none => exact ⟨⟨noneBytes, ln, msg⟩, by simp [reportError, hm]⟩
  | some b =>
    have hb : validUtf8 b = true := by simpa [filenameUtf8Ok] using hf
    exact ⟨⟨b, ln, msg⟩, by simp [reportError, hm, hb]⟩

/-- C6 witness: the ASCII message "hi" with a null filename pointer. -/
theorem reportError_emits_on_valid_utf8_witness :
    validUtf8 [104, 105] = true ∧ filenameUtf8Ok ⟨none, 3⟩ = true ∧
    (∃ r, reportError Ptr.null [104, 105] ⟨none, 3⟩ = ReportOutcome.emitted r) :=
  ⟨by decide, by decide,
   reportError_emits_on_valid_utf8 Ptr.null [104, 105] ⟨none, 3⟩ (by decide) (by decide)⟩

/-- C8: under the UTF-8 validity needed for the callback to complete,
the emitted record's source name is the byte string behind the filename
pointer, or the literal "none" when the pointer is null, and the line
number and message are the ones read from the report. -/
theorem reportError_record_fields (cx : Ptr) (msg : List Nat) (report : JSErrorReportRepr)
    (hm : validUtf8 msg = true) (hf : filenameUtf8Ok report = true) :
    reportError cx msg report =
      ReportOutcome.emitted ⟨report.filename.getD noneBytes, report.lineno, msg⟩ := by
  obtain ⟨fn, ln⟩ := report
  cases fn with
  | none => simp [reportError, hm]
  | some b =>
    have hb : validUtf8 b = true := by simpa [filenameUtf8Ok] using hf
    simp [reportError, hm, hb]

/-- C8 witness: a null filename pointer yields the "none" sentinel with
the report's line number and message. -/
theorem reportError_record_fields_witness :
    validUtf8 [104] = true ∧ filenameUtf8Ok ⟨none, 7⟩ = true ∧
    reportError Ptr.null [104] ⟨none, 7⟩ = ReportOutcome.emitted ⟨noneBytes, 7, [104]⟩ :=
  ⟨by decide, by decide,
   reportError_record_fields Ptr.null [104] ⟨none, 7⟩ (by decide) (by decide)⟩

/-- C7: with non-null native handles, Runtime::new performs exactly, in
order: engine creation with the default heap size; the JSGC_MAX_BYTES
parameter set to u32::MAX; context creation with the default stack
size; context options set to exactly the bitwise-or of the five
JSOPTION flags and nothing else; latest language version selected;
reportError installed as the error reporter; GC zeal (stress GC) set to
level 0 with the default frequency constant. -/
theorem runtime_new_call_sequence (c : CrateConsts) (rtPtr cxPtr : Ptr)
    (h1 : rtPtr.isNull = false) (h2 : cxPtr.isNull = false) :
    runtimeNew c rtPtr cxPtr = NewOutcome.built rtPtr cxPtr
      [InitCall.jsInit c.defaultHeapsize,
       InitCall.jsSetGCParameter c.jsgcMaxBytes u32MAX,
       InitCall.jsNewContext c.defaultStacksize,
       InitCall.jsSetOptions (c.varobjfix ||| c.methodjit ||| c.typeInference |||
         c.dontReportUncaught ||| c.autojsapiOwns),
       InitCall.jsSetVersion c.jsversionLatest,
       InitCall.jsSetErrorReporter,
       InitCall.jsSetGCZeal 0 c.defaultZealFreq] := by
  simp [runtimeNew, h1, h2]

/-- C7 witness: concrete constants and valid handles. -/
theorem runtime_new_call_sequence_witness :
    ((Ptr.valid 10).isNull = false) ∧ ((Ptr.valid 11).isNull = false) ∧
    runtimeNew ⟨32768, 8192, 3, 1, 2, 4, 8, 16, 5, 100⟩ (Ptr.valid 10) (Ptr.valid 11) =
      NewOutcome.built (Ptr.valid 10) (Ptr.valid 11)
        [InitCall.jsInit 32768,
         InitCall.jsSetGCParameter 3 u32MAX,
         InitCall.jsNewContext 8192,
         InitCall.jsSetOptions (1 ||| 2 ||| 4 ||| 8 ||| 16),
         InitCall.jsSetVersion 5,
         InitCall.jsSetErrorReporter,
         InitCall.jsSetGCZeal 0 100] :=
  ⟨rfl, rfl,
   runtime_new_call_sequence ⟨32768, 8192, 3, 1, 2, 4, 8, 16, 5, 100⟩
     (Ptr.valid 10) (Ptr.valid 11) rfl rfl⟩
